import Mathlib

set_option maxRecDepth 4000

/-!
Verification of the goccy go-yaml scanner and parser core
(package parser and package scanner under src/parser/parser.go).

Machine integers of the source are modelled as Lean Int, strings as
List Char or String over ASCII inputs, pointers that may be nil as
Option, and a Go nil-pointer dereference (a runtime panic) as the
distinguished error value PError.nilPanic.  Mutation is modelled by
explicit state passing.  Loops of the source carry a fuel argument;
fuel exhaustion is the distinguished error PError.fuelExhausted, and
the entry points supply fuel large enough for their input.
-/

namespace goyaml

/-- Token kinds of the token package (closed set, spec section 3). -/
inductive TokenType where
  | unknownType
  | documentHeaderType
  | documentEndType
  | sequenceStartType
  | sequenceEndType
  | mappingStartType
  | mappingEndType
  | sequenceEntryType
  | mappingValueType
  | collectEntryType
  | anchorType
  | aliasType
  | tagType
  | literalType
  | foldedType
  | directiveType
  | commentType
  | stringType
  | singleQuoteType
  | doubleQuoteType
  | nullType
  | boolType
  | integerType
  | binaryIntegerType
  | octetIntegerType
  | hexIntegerType
  | floatType
  | infinityType
  | nanType
  | mergeKeyType
deriving DecidableEq, Repr

/-- Position record carried by every token (spec section 3). -/
structure Position where
  line : Int
  column : Int
  offset : Int
  indentNum : Int
  indentLevel : Int
deriving DecidableEq, Repr

/-- A token: kind, semantic value, original lexeme, position, and the
forward link to the next token kind (set when the stream is linked). -/
structure Token where
  typ : TokenType
  value : String
  origin : String
  pos : Position
  next : Option TokenType := none
deriving DecidableEq, Repr

def trimLeftSpaces : List Char → List Char :=
  List.dropWhile (fun c => c = ' ')

def trimRightSpaces (l : List Char) : List Char :=
  (trimLeftSpaces l.reverse).reverse

def trimLeftNewlines : List Char → List Char :=
  List.dropWhile (fun c => c = '\n')

def startsWithChars : List Char → List Char → Bool
  | [], _ => true
  | _ :: _, [] => false
  | p :: ps, c :: cs => p = c && startsWithChars ps cs

def isDigitCh (c : Char) : Bool := '0' ≤ c && c ≤ '9'

def isHexCh (c : Char) : Bool :=
  isDigitCh c || ('a' ≤ c && c ≤ 'f') || ('A' ≤ c && c ≤ 'F')

def isOctCh (c : Char) : Bool := '0' ≤ c && c ≤ '7'

def isBinCh (c : Char) : Bool := c = '0' || c = '1'

def lowerCh (c : Char) : Char :=
  if 'A' ≤ c && c ≤ 'Z' then Char.ofNat (c.toNat + 32) else c

def lowerStr (s : String) : String := String.mk (s.toList.map lowerCh)

def allDigits (l : List Char) : Bool := l ≠ [] && l.all isDigitCh

/-- Modelled from the spec: the token package is not under src/.  Kind
classification of a flushed plain scalar, after spec section 4.3: null
forms, booleans (case-insensitive), infinities, nan, then the integer
prefixes 0b / 0o / leading-0 octal / 0x, plain integers with optional
sign, a textual float form, and otherwise String. -/
def classifyScalar (v : String) : TokenType :=
  let cs := v.toList
  let signless := match cs with
    | c :: rest => if c = '-' || c = '+' then rest else cs
    | [] => cs
  if v = "null" || v = "~" || v = "" then .nullType
  else if ["true", "false", "yes", "no", "on", "off"].contains (lowerStr v) then .boolType
  else if v = ".inf" || v = "-.inf" then .infinityType
  else if v = ".nan" then .nanType
  else if startsWithChars ['0', 'b'] cs && allDigits (cs.drop 2) && (cs.drop 2).all isBinCh then .binaryIntegerType
  else if startsWithChars ['0', 'o'] cs && (cs.drop 2) ≠ [] && (cs.drop 2).all isOctCh then .octetIntegerType
  else if startsWithChars ['0', 'x'] cs && (cs.drop 2) ≠ [] && (cs.drop 2).all isHexCh then .hexIntegerType
  else if cs.length ≥ 2 && cs.headD ' ' = '0' && cs.all isOctCh then .octetIntegerType
  else if allDigits signless then .integerType
  else if (match signless.splitOn '.' with
           | [a, b] => allDigits a && allDigits b
           | _ => false) then .floatType
  else .stringType

/-- Modelled from the spec: token.New builds a token from the flushed
semantic value, the original lexeme, and a position, classifying the
kind from the value (spec sections 3 and 4.3). -/
def Token.new (value origin : String) (pos : Position) : Token :=
  { typ := classifyScalar value, value := value, origin := origin, pos := pos }

/-- Modelled from the spec: fixed-lexeme token constructors of the token
package.  Constructors that the scanner calls with an origin argument
receive the original buffer; the rest carry their indicator text. -/
def Token.mappingStart (origin : String) (pos : Position) : Token :=
  { typ := .mappingStartType, value := "\x7b", origin := origin, pos := pos }

def Token.mappingEnd (origin : String) (pos : Position) : Token :=
  { typ := .mappingEndType, value := "\x7d", origin := origin, pos := pos }

def Token.sequenceStart (origin : String) (pos : Position) : Token :=
  { typ := .sequenceStartType, value := "[", origin := origin, pos := pos }

def Token.sequenceEnd (origin : String) (pos : Position) : Token :=
  { typ := .sequenceEndType, value := "]", origin := origin, pos := pos }

def Token.collectEntry (origin : String) (pos : Position) : Token :=
  { typ := .collectEntryType, value := ",", origin := origin, pos := pos }

def Token.sequenceEntry (origin : String) (pos : Position) : Token :=
  { typ := .sequenceEntryType, value := "-", origin := origin, pos := pos }

def Token.mappingValue (pos : Position) : Token :=
  { typ := .mappingValueType, value := ":", origin := ":", pos := pos }

def Token.documentHeader (pos : Position) : Token :=
  { typ := .documentHeaderType, value := "---", origin := "---", pos := pos }

def Token.documentEnd (pos : Position) : Token :=
  { typ := .documentEndType, value := "...", origin := "...", pos := pos }

def Token.mergeKey (origin : String) (pos : Position) : Token :=
  { typ := .mergeKeyType, value := "<<", origin := origin, pos := pos }

def Token.anchor (origin : String) (pos : Position) : Token :=
  { typ := .anchorType, value := "&", origin := origin, pos := pos }

def Token.aliasTk (origin : String) (pos : Position) : Token :=
  { typ := .aliasType, value := "*", origin := origin, pos := pos }

def Token.directive (pos : Position) : Token :=
  { typ := .directiveType, value := "%", origin := "%", pos := pos }

def Token.literalTk (value origin : String) (pos : Position) : Token :=
  { typ := .literalType, value := value, origin := origin, pos := pos }

def Token.foldedTk (value origin : String) (pos : Position) : Token :=
  { typ := .foldedType, value := value, origin := origin, pos := pos }

def Token.tag (value origin : String) (pos : Position) : Token :=
  { typ := .tagType, value := value, origin := origin, pos := pos }

def Token.comment (value origin : String) (pos : Position) : Token :=
  { typ := .commentType, value := value, origin := origin, pos := pos }

def Token.singleQuote (value origin : String) (pos : Position) : Token :=
  { typ := .singleQuoteType, value := value, origin := origin, pos := pos }

def Token.doubleQuote (value origin : String) (pos : Position) : Token :=
  { typ := .doubleQuoteType, value := value, origin := origin, pos := pos }

/-- IndentState of the scanner (source lines 490-502). -/
inductive IndentState where
  | indentStateEqual
  | indentStateUp
  | indentStateDown
  | indentStateKeep
deriving DecidableEq, Repr

/-- Modelled from the spec: the scanner Context (context.go is not
under src/; spec section 4.1): rune cursor over the remaining source,
the semantic buffer buf, the original buffer obuf, the token
accumulator, and the block-scalar mode flags. -/
structure SContext where
  src : List Char
  idx : Nat := 0
  buf : List Char := []
  obuf : List Char := []
  tokens : List Token := []
  isRawFolded : Bool := false
  isLiteral : Bool := false
  isFolded : Bool := false
  literalOpt : String := ""
deriving Repr

namespace SContext

def next (c : SContext) : Bool := c.idx < c.src.length

def nextPos (c : SContext) : Nat := c.idx + 1

def currentChar (c : SContext) : Char := c.src.getD c.idx (Char.ofNat 0)

def previousChar (c : SContext) : Char :=
  if 0 < c.idx then c.src.getD (c.idx - 1) (Char.ofNat 0) else Char.ofNat 0

def nextChar (c : SContext) : Char :=
  if c.idx + 1 < c.src.length then c.src.getD (c.idx + 1) (Char.ofNat 0) else Char.ofNat 0

def progress (c : SContext) (n : Nat) : SContext := { c with idx := c.idx + n }

def isEOS (c : SContext) : Bool := c.src.length ≤ c.idx + 1

def isNextEOS (c : SContext) : Bool := c.src.length ≤ c.idx + 2

def addBuf (c : SContext) (ch : Char) : SContext := { c with buf := c.buf ++ [ch] }

def addOriginBuf (c : SContext) (ch : Char) : SContext := { c with obuf := c.obuf ++ [ch] }

def bufferedSrc (c : SContext) : String := String.mk (trimLeftSpaces c.buf)

def source (c : SContext) (s e : Nat) : String := String.mk ((c.src.drop s).take (e - s))

def repeatNum (c : SContext) (r : Char) : Nat :=
  ((c.src.drop c.idx).takeWhile (fun x => x = r)).length

def isSaveIndentMode (c : SContext) : Bool := c.isLiteral || c.isFolded || c.isRawFolded

def addToken (c : SContext) (tk : Option Token) : SContext :=
  match tk with
  | none => c
  | some t => { c with tokens := c.tokens ++ [t] }

/-- Modelled from the spec: flush buf as one token classified by kind,
with obuf as its origin; an empty trimmed buffer flushes nothing and
leaves both buffers untouched. -/
def bufferedToken (c : SContext) (pos : Position) : Option Token × SContext :=
  if c.bufferedSrc = "" then (none, c)
  else (some (Token.new c.bufferedSrc (String.mk c.obuf) pos),
        { c with buf := [], obuf := [] })

def resetBuffer (c : SContext) : SContext := { c with buf := [], obuf := [] }

/-- Modelled from the spec: breakLiteral clears the block-scalar flags
and option; the pending body is flushed by the caller. -/
def breakLiteral (c : SContext) : SContext :=
  { c with isLiteral := false, isRawFolded := false, isFolded := false, literalOpt := "" }

end SContext

/-- The scanner state (source lines 506-524). -/
structure Scanner where
  source : List Char
  sourcePos : Nat
  sourceSize : Nat
  line : Int
  column : Int
  offset : Int
  prevIndentLevel : Int
  prevIndentNum : Int
  prevIndentColumn : Int
  indentLevel : Int
  indentNum : Int
  isFirstCharAtLine : Bool
  isAnchor : Bool
  isStartedFlowSequence : Bool
  isStartedFlowMap : Bool
  indentState : IndentState
  savedPos : Option Position
deriving Repr

namespace Scanner

/-- Scanner.pos (source lines 526-534). -/
def pos (s : Scanner) : Position :=
  { line := s.line, column := s.column, offset := s.offset,
    indentNum := s.indentNum, indentLevel := s.indentLevel }

/-- Scanner.bufferedToken (source lines 536-551). -/
def bufferedTokenF (s : Scanner) (ctx : SContext) : Scanner × SContext × Option Token :=
  match s.savedPos with
  | some sp =>
      let (tk, ctx') := ctx.bufferedToken sp
      ({ s with savedPos := none }, ctx', tk)
  | none =>
      let size : Int := (trimLeftSpaces ctx.buf).length
      let (tk, ctx') := ctx.bufferedToken
        { line := s.line, column := s.column - size, offset := s.offset - size,
          indentNum := s.indentNum, indentLevel := s.indentLevel }
      (s, ctx', tk)

/-- Scanner.progressColumn (source lines 553-557). -/
def progressColumn (s : Scanner) (ctx : SContext) (num : Nat) : Scanner × SContext :=
  ({ s with column := s.column + num, offset := s.offset + num }, ctx.progress num)

/-- Scanner.progressLine (source lines 559-567). -/
def progressLine (s : Scanner) (ctx : SContext) : Scanner × SContext :=
  ({ s with
      column := 1
      line := s.line + 1
      offset := s.offset + 1
      indentNum := 0
      isFirstCharAtLine := true
      isAnchor := false },
   ctx.progress 1)

/-- Scanner.updateIndent (source lines 569-605). -/
def updateIndent (s : Scanner) (c : Char) : Scanner :=
  if s.isFirstCharAtLine && c = ' ' then
    { s with indentNum := s.indentNum + 1 }
  else if !s.isFirstCharAtLine then
    { s with indentState := .indentStateKeep }
  else
    let s :=
      if s.prevIndentNum < s.indentNum then
        { s with indentLevel := s.prevIndentLevel + 1, indentState := .indentStateUp }
      else if s.prevIndentNum = s.indentNum then
        { s with indentLevel := s.prevIndentLevel, indentState := .indentStateEqual }
      else
        let s := { s with indentState := .indentStateDown }
        if 0 < s.prevIndentLevel then { s with indentLevel := s.prevIndentLevel - 1 } else s
    let s :=
      if 0 < s.prevIndentColumn then
        if s.prevIndentColumn < s.column then { s with indentState := .indentStateUp }
        else if s.prevIndentColumn = s.column then { s with indentState := .indentStateEqual }
        else { s with indentState := .indentStateDown }
      else s
    { s with
      prevIndentNum := s.indentNum
      prevIndentColumn := 0
      prevIndentLevel := s.indentLevel
      isFirstCharAtLine := false }

def isChangedToIndentStateDown (s : Scanner) : Bool := s.indentState = .indentStateDown

def isChangedToIndentStateUp (s : Scanner) : Bool := s.indentState = .indentStateUp

def isChangedToIndentStateEqual (s : Scanner) : Bool := s.indentState = .indentStateEqual

/-- Scanner.addBufferedTokenIfExists (source lines 619-621). -/
def addBufferedTokenIfExists (s : Scanner) (ctx : SContext) : Scanner × SContext :=
  let (s', ctx', tk) := s.bufferedTokenF ctx
  (s', ctx'.addToken tk)

/-- Scanner.scanQuote (source lines 627-651).  The cursor does not move
during the search loop, so previousChar reads the character before the
opening quote, exactly as in the source. -/
def scanQuote (s : Scanner) (ctx : SContext) (ch : Char) : SContext × Option Token × Nat :=
  let startIndex := ctx.idx + 1
  let ctx := ctx.addOriginBuf ch
  let ctx := ctx.progress 1
  let rec go (rest : List Char) (idx : Nat) (ctx : SContext) : SContext × Option Token × Nat :=
    match rest with
    | [] => (ctx, none, idx)
    | c :: cs =>
      let ctx := ctx.addOriginBuf c
      if c = ch then
        if ctx.previousChar = '\\' then go cs (idx + 1) ctx
        else
          let value := ctx.source startIndex (startIndex + idx)
          let tk :=
            if ch = Char.ofNat 39 then some (Token.singleQuote value (String.mk ctx.obuf) s.pos)
            else if ch = '"' then some (Token.doubleQuote value (String.mk ctx.obuf) s.pos)
            else none
          (ctx, tk, value.toList.length + 1)
      else go cs (idx + 1) ctx
  match ctx.src.drop startIndex with
  | [] => (ctx, none, 0)
  | rest =>
    let (ctx, tk, p) := go rest 0 ctx
    (ctx, tk, p)

/-- Scanner.scanTag (source lines 653-668). -/
def scanTag (s : Scanner) (ctx : SContext) : SContext × Option Token × Nat :=
  let ctx := ctx.addOriginBuf '!'
  let ctx := ctx.progress 1
  let rec go (rest : List Char) (idx : Nat) (ctx : SContext) : SContext × Option Token × Nat :=
    match rest with
    | [] => (ctx, none, idx)
    | c :: cs =>
      let ctx := ctx.addOriginBuf c
      if c = ' ' || c = '\n' then
        let value := ctx.source (ctx.idx - 1) (ctx.idx + idx)
        (ctx, some (Token.tag value (String.mk ctx.obuf) s.pos), value.toList.length)
      else go cs (idx + 1) ctx
  go (ctx.src.drop ctx.idx) 0 ctx

/-- Scanner.scanComment (source lines 670-688). -/
def scanComment (s : Scanner) (ctx : SContext) : SContext × Option Token × Nat :=
  let ctx := ctx.addOriginBuf '#'
  let ctx := ctx.progress 1
  let rec go (rest : List Char) (idx : Nat) (ctx : SContext) : SContext × Option Token × Nat :=
    match rest with
    | [] => (ctx, none, idx)
    | c :: cs =>
      let ctx := ctx.addOriginBuf c
      if c = '\n' then
        if ctx.previousChar = '\\' then go cs (idx + 1) ctx
        else
          let value := ctx.source ctx.idx (ctx.idx + idx)
          (ctx, some (Token.comment value (String.mk ctx.obuf) s.pos), value.toList.length + 1)
      else go cs (idx + 1) ctx
  go (ctx.src.drop ctx.idx) 0 ctx

/-- Scanner.scanLiteral (source lines 690-709). -/
def scanLiteralF (s : Scanner) (ctx : SContext) (c : Char) : Scanner × SContext :=
  let ctx :=
    if ctx.isEOS then
      ctx.addToken (some (Token.new ctx.bufferedSrc (String.mk ctx.obuf) s.pos))
    else ctx
  let (s, ctx) :=
    if c = '\n' then
      let ctx := if ctx.isLiteral then ctx.addBuf c else ctx.addBuf ' '
      s.progressLine ctx
    else if s.isFirstCharAtLine && c = ' ' then
      s.progressColumn ctx 1
    else
      let ctx := ctx.addBuf c
      s.progressColumn ctx 1
  (s, ctx.addOriginBuf c)

/-- Scanner.scanLiteralHeader (source lines 711-741).  The Bool result
is true when the source sets err (invalid literal header); the error is
positionless in the source. -/
def scanLiteralHeader (s : Scanner) (ctx : SContext) : Nat × SContext × Bool :=
  let header := ctx.currentChar
  let ctx := ctx.addOriginBuf header
  let ctx := ctx.progress 1
  let rec go (rest : List Char) (idx : Nat) (ctx : SContext) : Nat × SContext × Bool :=
    match rest with
    | [] => (idx - 1, ctx, true) -- loop exhausted: err = invalid literal header
    | c :: cs =>
      let p := idx
      let ctx := ctx.addOriginBuf c
      if c = '\n' then
        let value := ctx.source ctx.idx (ctx.idx + idx)
        let opt := String.mk (trimRightSpaces value.toList)
        if opt = "" || opt = "+" || opt = "-" ||
           (opt.toList.length = 1 && isDigitCh (opt.toList.headD ' ')) then
          let ctx :=
            if header = '|' then
              { (ctx.addToken (some (Token.literalTk ("|" ++ opt) (String.mk ctx.obuf) s.pos))) with isLiteral := true }
            else if header = '>' then
              { (ctx.addToken (some (Token.foldedTk (">" ++ opt) (String.mk ctx.obuf) s.pos))) with isFolded := true }
            else ctx
          let ctx := ctx.resetBuffer
          (p, { ctx with literalOpt := opt }, false)
        else go cs (idx + 1) ctx
      else go cs (idx + 1) ctx
  go (ctx.src.drop ctx.idx) 0 ctx

/-- Scanner.scanNewLine (source lines 743-756). -/
def scanNewLine (s : Scanner) (ctx : SContext) (c : Char) : Scanner × SContext :=
  let s :=
    if 0 < ctx.buf.length && s.savedPos = none then
      let sp := s.pos
      { s with savedPos := some { sp with column := sp.column - (ctx.bufferedSrc.toList.length : Int) } }
    else s
  let (s, ctx) :=
    if ctx.isEOS then s.addBufferedTokenIfExists ctx
    else if s.isAnchor then s.addBufferedTokenIfExists ctx
    else (s, ctx)
  let ctx := ctx.addBuf ' '
  let ctx := ctx.addOriginBuf c
  s.progressLine ctx

/-- Scanner.scan (source lines 758-965).  One iteration per character;
`pos` is the named return of the source.  In the encoding, the first
marker is true when the character was handled by block-scalar mode
(continue), and the second marker is true when the source returns from
scan, carrying the position to return. -/
def scanLoop : Nat → Scanner → SContext → Nat → Nat × Scanner × SContext
  | 0, s, ctx, pos => (pos, s, ctx)
  | fuel + 1, s, ctx, pos =>
    if ¬ ctx.next then
      let (s, ctx) := s.addBufferedTokenIfExists ctx
      (pos, s, ctx)
    else
      let pos := ctx.nextPos
      let c := ctx.currentChar
      let s := s.updateIndent c
      let head : Bool × Scanner × SContext :=
        if s.isChangedToIndentStateDown then
          let (s, ctx) := s.addBufferedTokenIfExists ctx
          (false, s, ctx.breakLiteral)
        else if ctx.isLiteral || ctx.isFolded || ctx.isRawFolded then
          let (s, ctx) := s.scanLiteralF ctx c
          (true, s, ctx)
        else if s.isChangedToIndentStateEqual then
          -- if the first buffered character is a newline, keep the buffer
          -- (it may be a raw folded literal)
          if 0 < ctx.obuf.length && ctx.obuf.headD ' ' ≠ '\n' then
            let (s, ctx) := s.addBufferedTokenIfExists ctx
            (false, s, ctx)
          else (false, s, ctx)
        else (false, s, ctx)
      match head with
      | (true, s, ctx) => scanLoop fuel s ctx pos
      | (false, s, ctx) =>
        let dflt : Scanner → SContext → (Bool × Nat) × Scanner × SContext := fun s ctx =>
          let ctx := ctx.addBuf c
          let ctx := ctx.addOriginBuf c
          let (s, ctx) := s.progressColumn ctx 1
          ((false, 0), s, ctx)
        let step : (Bool × Nat) × Scanner × SContext :=
          if c = Char.ofNat 123 then -- left curly brace
            if ctx.bufferedSrc = "" then
              let ctx := ctx.addOriginBuf c
              let ctx := ctx.addToken (some (Token.mappingStart (String.mk ctx.obuf) s.pos))
              let s := { s with isStartedFlowMap := true }
              let (s, ctx) := s.progressColumn ctx 1
              ((true, pos), s, ctx)
            else dflt s ctx
          else if c = Char.ofNat 125 then -- right curly brace
            if ctx.bufferedSrc = "" || s.isStartedFlowMap then
              let (s, ctx, tk) := s.bufferedTokenF ctx
              let ctx := ctx.addToken tk
              let ctx := ctx.addOriginBuf c
              let ctx := ctx.addToken (some (Token.mappingEnd (String.mk ctx.obuf) s.pos))
              let s := { s with isStartedFlowMap := false }
              let (s, ctx) := s.progressColumn ctx 1
              ((true, pos), s, ctx)
            else dflt s ctx
          else if c = '.' then
            if s.indentNum = 0 && ctx.repeatNum '.' = 3 then
              let ctx := ctx.addToken (some (Token.documentEnd s.pos))
              let (s, ctx) := s.progressColumn ctx 3
              ((true, pos + 2), s, ctx)
            else dflt s ctx
          else if c = '<' then
            if ctx.repeatNum '<' = 2 then
              let s := { s with prevIndentColumn := s.column }
              let ctx := ctx.addToken (some (Token.mergeKey (String.mk ctx.obuf ++ "<<") s.pos))
              let (s, ctx) := s.progressColumn ctx 1
              ((true, pos + 1), s, ctx)
            else dflt s ctx
          else if c = '-' then
            if s.indentNum = 0 && ctx.repeatNum '-' = 3 then
              let (s, ctx) := s.addBufferedTokenIfExists ctx
              let ctx := ctx.addToken (some (Token.documentHeader s.pos))
              let (s, ctx) := s.progressColumn ctx 3
              ((true, pos + 2), s, ctx)
            else if ctx.bufferedSrc ≠ "" && s.isChangedToIndentStateUp then
              -- raw folded
              let ctx := { ctx with isRawFolded := true }
              let ctx := ctx.addBuf c
              let ctx := ctx.addOriginBuf c
              let (s, ctx) := s.progressColumn ctx 1
              ((false, 0), s, ctx)
            else if ctx.nextChar = ' ' then
              let (s, ctx) := s.addBufferedTokenIfExists ctx
              let ctx := ctx.addOriginBuf c
              let tk := Token.sequenceEntry (String.mk ctx.obuf) s.pos
              let s := { s with prevIndentColumn := tk.pos.column }
              let ctx := ctx.addToken (some tk)
              let (s, ctx) := s.progressColumn ctx 1
              ((true, pos), s, ctx)
            else dflt s ctx
          else if c = '[' then
            if ctx.bufferedSrc = "" then
              let ctx := ctx.addOriginBuf c
              let ctx := ctx.addToken (some (Token.sequenceStart (String.mk ctx.obuf) s.pos))
              let s := { s with isStartedFlowSequence := true }
              let (s, ctx) := s.progressColumn ctx 1
              ((true, pos), s, ctx)
            else dflt s ctx
          else if c = ']' then
            if ctx.bufferedSrc = "" || s.isStartedFlowSequence then
              let (s, ctx) := s.addBufferedTokenIfExists ctx
              let ctx := ctx.addOriginBuf c
              let ctx := ctx.addToken (some (Token.sequenceEnd (String.mk ctx.obuf) s.pos))
              let s := { s with isStartedFlowSequence := false }
              let (s, ctx) := s.progressColumn ctx 1
              ((true, pos), s, ctx)
            else dflt s ctx
          else if c = ',' then
            if s.isStartedFlowSequence || s.isStartedFlowMap then
              let (s, ctx) := s.addBufferedTokenIfExists ctx
              let ctx := ctx.addOriginBuf c
              let ctx := ctx.addToken (some (Token.collectEntry (String.mk ctx.obuf) s.pos))
              let (s, ctx) := s.progressColumn ctx 1
              ((true, pos), s, ctx)
            else dflt s ctx
          else if c = ':' then
            let nc := ctx.nextChar
            if nc = ' ' || nc = '\n' || ctx.isNextEOS then
              -- mapping value
              let (s, ctx, tk) := s.bufferedTokenF ctx
              let (s, ctx) :=
                match tk with
                | some t => ({ s with prevIndentColumn := t.pos.column }, ctx.addToken (some t))
                | none => (s, ctx)
              let ctx := ctx.addToken (some (Token.mappingValue s.pos))
              let (s, ctx) := s.progressColumn ctx 1
              ((true, pos), s, ctx)
            else dflt s ctx
          else if c = '|' || c = '>' then
            if ctx.bufferedSrc = "" then
              let (progress, ctx, err) := s.scanLiteralHeader ctx
              if err then
                -- TODO in the source: returns syntax error object.
                -- The error is discarded and scan simply returns.
                ((true, pos), s, ctx)
              else
                let (s, ctx) := s.progressColumn ctx progress
                let (s, ctx) := s.progressLine ctx
                ((false, 0), s, ctx)
            else dflt s ctx
          else if c = '!' then
            if ctx.bufferedSrc = "" then
              let (ctx, tk, progress) := s.scanTag ctx
              let ctx := ctx.addToken tk
              let (s, ctx) := s.progressColumn ctx progress
              let (s, ctx) := if ctx.previousChar = '\n' then s.progressLine ctx else (s, ctx)
              ((true, pos + progress), s, ctx)
            else dflt s ctx
          else if c = '%' then
            if ctx.bufferedSrc = "" && s.indentNum = 0 then
              let ctx := ctx.addToken (some (Token.directive s.pos))
              let (s, ctx) := s.progressColumn ctx 1
              ((true, pos), s, ctx)
            else dflt s ctx
          else if c = '?' then
            let nc := ctx.nextChar
            if ctx.bufferedSrc = "" && nc = ' ' then
              let ctx := ctx.addToken (some (Token.directive s.pos))
              let (s, ctx) := s.progressColumn ctx 1
              ((true, pos), s, ctx)
            else dflt s ctx
          else if c = '&' then
            if ctx.bufferedSrc = "" then
              let (s, ctx) := s.addBufferedTokenIfExists ctx
              let ctx := ctx.addOriginBuf c
              let ctx := ctx.addToken (some (Token.anchor (String.mk ctx.obuf) s.pos))
              let (s, ctx) := s.progressColumn ctx 1
              let s := { s with isAnchor := true }
              ((true, pos), s, ctx)
            else dflt s ctx
          else if c = '*' then
            if ctx.bufferedSrc = "" then
              let (s, ctx) := s.addBufferedTokenIfExists ctx
              let ctx := ctx.addOriginBuf c
              let ctx := ctx.addToken (some (Token.aliasTk (String.mk ctx.obuf) s.pos))
              let (s, ctx) := s.progressColumn ctx 1
              ((true, pos), s, ctx)
            else dflt s ctx
          else if c = '#' then
            let (s, ctx) := s.addBufferedTokenIfExists ctx
            let (ctx, tk, progress) := s.scanComment ctx
            let ctx := ctx.addToken tk
            let (s, ctx) := s.progressColumn ctx progress
            let (s, ctx) := s.progressLine ctx
            ((true, pos + progress), s, ctx)
          else if c = Char.ofNat 39 || c = '"' then -- single or double quote
            let (ctx, tk, progress) := s.scanQuote ctx c
            let ctx := ctx.addToken tk
            let (s, ctx) := s.progressColumn ctx progress
            ((true, pos + progress), s, ctx)
          else if c = '\n' then
            let (s, ctx) := s.scanNewLine ctx c
            ((false, 0), s, ctx)
          else if c = ' ' then
            if ctx.isSaveIndentMode || (!s.isAnchor && !s.isFirstCharAtLine) then
              let ctx := ctx.addBuf c
              let ctx := ctx.addOriginBuf c
              let (s, ctx) := s.progressColumn ctx 1
              ((false, 0), s, ctx)
            else if s.isFirstCharAtLine then
              let (s, ctx) := s.progressColumn ctx 1
              let ctx := ctx.addOriginBuf c
              ((false, 0), s, ctx)
            else
              let (s, ctx) := s.addBufferedTokenIfExists ctx
              let (s, ctx) := s.progressColumn ctx 1
              let s := { s with isAnchor := false }
              ((true, pos), s, ctx)
          else dflt s ctx
        match step with
        | ((true, rp), s, ctx) => (rp, s, ctx)
        | ((false, _), s, ctx) => scanLoop fuel s ctx pos

/-- Scanner.Init (source lines 967-981); the remaining fields carry the
zero value each fresh scanner starts from. -/
def init (src : String) : Scanner :=
  { source := src.toList
    sourcePos := 0
    sourceSize := src.toList.length
    line := 1
    column := 1
    offset := 1
    prevIndentLevel := 0
    prevIndentNum := 0
    prevIndentColumn := 0
    indentLevel := 0
    indentNum := 0
    isFirstCharAtLine := true
    isAnchor := false
    isStartedFlowSequence := false
    isStartedFlowMap := false
    indentState := .indentStateEqual
    savedPos := none }

/-- Scanner.Scan (source lines 984-992): none models the io.EOF result;
otherwise the token batch of one scan call is returned.  The scan call
itself never reports an error. -/
def Scan (s : Scanner) : Option (List Token × Scanner) :=
  if s.sourceSize ≤ s.sourcePos then none
  else
    let ctx : SContext := { src := s.source.drop s.sourcePos }
    let (progress, s, ctx) := scanLoop (ctx.src.length + 2) s ctx 0
    some (ctx.tokens, { s with sourcePos := s.sourcePos + progress })

end Scanner

/-- Modelled from the spec: the finalization step that links every
token to the kind of its successor (spec section 3: the forward link is
set when the stream is handed off). -/
def linkTokens : List Token → List Token
  | [] => []
  | [t] => [t]
  | t :: u :: rest => { t with next := some u.typ } :: linkTokens (u :: rest)

/-- Modelled from the spec: lexer.Tokenize is not under src/.  It
initializes a scanner over the whole buffer, calls Scan until EOF,
concatenates the token batches and finalizes the stream (spec
section 6: tokenize never fails). -/
def tokenizeLoop : Nat → Scanner → List Token → List Token
  | 0, _, acc => acc
  | fuel + 1, s, acc =>
    match s.Scan with
    | none => acc
    | some (tks, s') => tokenizeLoop fuel s' (acc ++ tks)

def Tokenize (src : String) : List Token :=
  linkTokens (tokenizeLoop (src.toList.length + 2) (Scanner.init src) [])

/-! ## The parser (package parser, source lines 14-412) -/

/-- Modelled from the spec: node kinds of the ast package (ast is not
under src/; spec section 3 lists the closed set of node variants). -/
inductive NodeType where
  | nullType
  | boolType
  | integerType
  | floatType
  | infinityType
  | nanType
  | stringType
  | mergeKeyType
  | literalType
  | mappingType
  | mappingValueType
  | sequenceType
  | anchorType
  | aliasType
  | tagType
  | directiveType
  | documentType
deriving DecidableEq, Repr

/-- Modelled from the spec: the ast node variants (spec section 3).
Fields that the parser may populate with a Go nil node are Option. -/
inductive Node where
  | nullNode (tk : Token)
  | boolNode (tk : Token)
  | integerNode (tk : Token)
  | floatNode (tk : Token)
  | infinityNode (tk : Token)
  | nanNode (tk : Token)
  | stringNode (tk : Token)
  | mergeKeyNode (tk : Token)
  | literalNode (start : Token) (value : Node)
  | mappingValueNode (start : Token) (key value : Node)
  | mappingNode (start : Token) (isFlowStyle : Bool) (endTk : Option Token) (values : List Node)
  | sequenceNode (start : Token) (isFlowStyle : Bool) (endTk : Option Token) (values : List (Option Node))
  | anchorNode (start : Token) (name value : Option Node)
  | aliasNode (start : Token) (value : Option Node)
  | tagNode (start : Token) (value : Option Node)
  | directiveNode (start : Token) (value : Option Node)
  | documentNode (start endTk : Option Token) (body : Option Node)
deriving Repr

/-- Modelled from the spec: ast Type of each node variant. -/
def Node.typeOf : Node → NodeType
  | .nullNode _ => .nullType
  | .boolNode _ => .boolType
  | .integerNode _ => .integerType
  | .floatNode _ => .floatType
  | .infinityNode _ => .infinityType
  | .nanNode _ => .nanType
  | .stringNode _ => .stringType
  | .mergeKeyNode _ => .mergeKeyType
  | .literalNode _ _ => .literalType
  | .mappingValueNode _ _ _ => .mappingValueType
  | .mappingNode _ _ _ _ => .mappingType
  | .sequenceNode _ _ _ _ => .sequenceType
  | .anchorNode _ _ _ => .anchorType
  | .aliasNode _ _ => .aliasType
  | .tagNode _ _ => .tagType
  | .directiveNode _ _ => .directiveType
  | .documentNode _ _ _ => .documentType

/-- Modelled from the spec: ast GetToken; every variant reports its
first token, a document delegates to its body. -/
def Node.getToken : Node → Option Token
  | .nullNode tk => some tk
  | .boolNode tk => some tk
  | .integerNode tk => some tk
  | .floatNode tk => some tk
  | .infinityNode tk => some tk
  | .nanNode tk => some tk
  | .stringNode tk => some tk
  | .mergeKeyNode tk => some tk
  | .literalNode start _ => some start
  | .mappingValueNode start _ _ => some start
  | .mappingNode start _ _ _ => some start
  | .sequenceNode start _ _ _ => some start
  | .anchorNode start _ _ => some start
  | .aliasNode start _ => some start
  | .tagNode start _ => some start
  | .directiveNode start _ => some start
  | .documentNode _ _ (some b) => b.getToken
  | .documentNode _ _ none => none

/-- Modelled from the spec: which ast variants implement ScalarNode
(the string family, the number family, Null, MergeKey, Literal). -/
def Node.isScalarNode : Node → Bool
  | .nullNode _ => true
  | .boolNode _ => true
  | .integerNode _ => true
  | .floatNode _ => true
  | .infinityNode _ => true
  | .nanNode _ => true
  | .stringNode _ => true
  | .mergeKeyNode _ => true
  | .literalNode _ _ => true
  | _ => false

/-- Modelled from the spec: the printable ast type names used in the
formatted error of parseMappingValue. -/
def nodeTypeName : NodeType → String
  | .nullType => "Null"
  | .boolType => "Bool"
  | .integerType => "Integer"
  | .floatType => "Float"
  | .infinityType => "Infinity"
  | .nanType => "Nan"
  | .stringType => "String"
  | .mergeKeyType => "MergeKey"
  | .literalType => "Literal"
  | .mappingType => "Mapping"
  | .mappingValueType => "MappingValue"
  | .sequenceType => "Sequence"
  | .anchorType => "Anchor"
  | .aliasType => "Alias"
  | .tagType => "Tag"
  | .directiveType => "Directive"
  | .documentType => "Document"

/-- Parser outcomes.  syntaxErr models errors.ErrSyntax (message plus
offending token); wrap models errors.Wrapf; fmtErr models
xerrors.Errorf; nilPanic models a Go nil-pointer dereference (a crash
that unwinds past every error wrapper); fuelExhausted is the artifact
of the fuel encoding and never occurs at the fuel the entry points
supply. -/
inductive PError where
  | syntaxErr (msg : String) (tk : Option Token)
  | wrap (msg : String) (inner : PError)
  | fmtErr (msg : String)
  | nilPanic
  | fuelExhausted
deriving DecidableEq, Repr

/-- errors.Wrapf: wraps ordinary errors; a panic or fuel exhaustion
passes through unchanged. -/
def wrapErr (msg : String) : PError → PError
  | .nilPanic => .nilPanic
  | .fuelExhausted => .fuelExhausted
  | e => .wrap msg e

/-- Modelled from the spec: the parser context (context.go of the
parser package is not under src/; spec section 4.4): token cursor with
one- and two-token lookahead. -/
structure PContext where
  tokens : List Token
  idx : Nat := 0
deriving Repr

namespace PContext

def currentToken (c : PContext) : Option Token := c.tokens.get? c.idx

def nextToken (c : PContext) : Option Token := c.tokens.get? (c.idx + 1)

def afterNextToken (c : PContext) : Option Token := c.tokens.get? (c.idx + 2)

def progress (c : PContext) (n : Nat) : PContext := { c with idx := c.idx + n }

def next (c : PContext) : Bool := c.idx < c.tokens.length

end PContext

/-- Mode bit set (source lines 374-378). -/
def ParseComments : Nat := 1

/-- Modelled from the spec: parser context construction filters comment
tokens unless ParseComments is set (spec section 4.4). -/
def newPContext (tokens : List Token) (mode : Nat) : PContext :=
  if mode &&& ParseComments ≠ 0 then { tokens := tokens }
  else { tokens := tokens.filter (fun t => t.typ ≠ .commentType) }

/-- parser.parseStringValue (source lines 244-252). -/
def parseStringValue (tk : Token) : Option Node :=
  match tk.typ with
  | .stringType => some (.stringNode tk)
  | .singleQuoteType => some (.stringNode tk)
  | .doubleQuoteType => some (.stringNode tk)
  | _ => none

/-- parser.parseMapKey (source lines 231-242). -/
def parseMapKey (tk : Token) : Option Node :=
  match parseStringValue tk with
  | some n => some n
  | none =>
    if tk.typ = .mergeKeyType then some (.mergeKeyNode tk)
    else if tk.typ = .nullType then some (.nullNode tk)
    else none

/-- parser.parseScalarValue (source lines 254-276). -/
def parseScalarValue (tk : Token) : Option Node :=
  match parseStringValue tk with
  | some n => some n
  | none =>
    match tk.typ with
    | .nullType => some (.nullNode tk)
    | .boolType => some (.boolNode tk)
    | .integerType => some (.integerNode tk)
    | .binaryIntegerType => some (.integerNode tk)
    | .octetIntegerType => some (.integerNode tk)
    | .hexIntegerType => some (.integerNode tk)
    | .floatType => some (.floatNode tk)
    | .infinityType => some (.infinityNode tk)
    | .nanType => some (.nanNode tk)
    | _ => none

/-- parser.validateMapKey (source lines 77-86): a String key whose
origin, after trimming leading newlines, has an interior newline is
rejected. -/
def validateMapKey (tk : Token) : Bool :=
  if tk.typ ≠ .stringType then true
  else
    let origin := trimLeftNewlines tk.origin.toList
    match origin.findIdx? (fun c => c = '\n') with
    | some i => decide (¬ 0 < i)
    | none => true

mutual

/-- parser.parseToken (source lines 323-351): dispatch on the forward
link first, then scalar kinds, then the structural kinds.  A nil token
argument is dereferenced by tk.NextType() in the source: nilPanic. -/
def parseToken (fuel : Nat) (ctx : PContext) (tkO : Option Token) :
    Except PError (Option Node × PContext) :=
  match fuel with
  | 0 => .error .fuelExhausted
  | fuel + 1 =>
    match tkO with
    | none => .error .nilPanic -- tk.NextType() dereferences the nil token
    | some tk =>
      if tk.next = some .mappingValueType then
        match parseMappingValue fuel ctx with
        | .error e => .error e
        | .ok (n, ctx) => .ok (some n, ctx)
      else
        match parseScalarValue tk with
        | some n => .ok (some n, ctx)
        | none =>
          match tk.typ with
          | .documentHeaderType =>
            match parseDocument fuel ctx with
            | .error e => .error e
            | .ok (n, ctx) => .ok (some n, ctx)
          | .mappingStartType =>
            match parseMapping fuel ctx with
            | .error e => .error e
            | .ok (n, ctx) => .ok (some n, ctx)
          | .sequenceStartType =>
            match parseSequence fuel ctx with
            | .error e => .error e
            | .ok (n, ctx) => .ok (some n, ctx)
          | .sequenceEntryType =>
            match parseSequenceEntry fuel ctx with
            | .error e => .error e
            | .ok (n, ctx) => .ok (some n, ctx)
          | .anchorType =>
            match parseAnchor fuel ctx with
            | .error e => .error e
            | .ok (n, ctx) => .ok (some n, ctx)
          | .aliasType =>
            match parseAlias fuel ctx with
            | .error e => .error e
            | .ok (n, ctx) => .ok (some n, ctx)
          | .directiveType =>
            match parseDirective fuel ctx with
            | .error e => .error e
            | .ok (n, ctx) => .ok (some n, ctx)
          | .tagType =>
            match parseTag fuel ctx with
            | .error e => .error e
            | .ok (n, ctx) => .ok (some n, ctx)
          | .literalType =>
            match parseLiteral fuel ctx with
            | .error e => .error e
            | .ok (n, ctx) => .ok (some n, ctx)
          | .foldedType =>
            match parseLiteral fuel ctx with
            | .error e => .error e
            | .ok (n, ctx) => .ok (some n, ctx)
          | _ => .ok (none, ctx)

/-- parser.parseMapping (source lines 16-41): flow mapping. -/
def parseMapping (fuel : Nat) (ctx : PContext) : Except PError (Node × PContext) :=
  match fuel with
  | 0 => .error .fuelExhausted
  | fuel + 1 =>
    match ctx.currentToken with
    | none => .error .nilPanic -- unreachable: dispatched on the current token
    | some startTk =>
      let ctx := ctx.progress 1
      match parseMappingLoop fuel [] ctx with
      | .error e => .error e
      | .ok (endTk, values, ctx) => .ok (.mappingNode startTk true endTk values, ctx)

/-- The for-loop of parser.parseMapping (source lines 19-39): consume
until MappingEnd, skip CollectEntry, require every element to parse to
a MappingValue node. -/
def parseMappingLoop (fuel : Nat) (values : List Node) (ctx : PContext) :
    Except PError (Option Token × List Node × PContext) :=
  match fuel with
  | 0 => .error .fuelExhausted
  | fuel + 1 =>
    if ¬ ctx.next then .ok (none, values, ctx)
    else
      match ctx.currentToken with
      | none => .ok (none, values, ctx) -- unreachable: next guarantees a token
      | some tk =>
        if tk.typ = .mappingEndType then .ok (some tk, values, ctx)
        else if tk.typ = .collectEntryType then
          parseMappingLoop fuel values (ctx.progress 1)
        else
          match parseToken fuel ctx (some tk) with
          | .error e => .error (wrapErr "failed to parse mapping value in mapping node" e)
          | .ok (none, _) => .error .nilPanic -- value.GetToken() dereferences the nil node
          | .ok (some value, ctx) =>
            match value with
            | .mappingValueNode a b c =>
              parseMappingLoop fuel (values ++ [Node.mappingValueNode a b c]) (ctx.progress 1)
            | _ => .error (.syntaxErr "failed to parse flow mapping value node" value.getToken)

/-- parser.parseSequence (source lines 43-64): flow sequence. -/
def parseSequence (fuel : Nat) (ctx : PContext) : Except PError (Node × PContext) :=
  match fuel with
  | 0 => .error .fuelExhausted
  | fuel + 1 =>
    match ctx.currentToken with
    | none => .error .nilPanic -- unreachable: dispatched on the current token
    | some startTk =>
      let ctx := ctx.progress 1
      match parseSequenceLoop fuel [] ctx with
      | .error e => .error e
      | .ok (endTk, values, ctx) => .ok (.sequenceNode startTk true endTk values, ctx)

/-- The for-loop of parser.parseSequence (source lines 46-62). -/
def parseSequenceLoop (fuel : Nat) (values : List (Option Node)) (ctx : PContext) :
    Except PError (Option Token × List (Option Node) × PContext) :=
  match fuel with
  | 0 => .error .fuelExhausted
  | fuel + 1 =>
    if ¬ ctx.next then .ok (none, values, ctx)
    else
      match ctx.currentToken with
      | none => .ok (none, values, ctx) -- unreachable: next guarantees a token
      | some tk =>
        if tk.typ = .sequenceEndType then .ok (some tk, values, ctx)
        else if tk.typ = .collectEntryType then
          parseSequenceLoop fuel values (ctx.progress 1)
        else
          match parseToken fuel ctx (some tk) with
          | .error e => .error (wrapErr "failed to parse sequence value in flow sequence node" e)
          | .ok (vOpt, ctx) => parseSequenceLoop fuel (values ++ [vOpt]) (ctx.progress 1)

/-- parser.parseTag (source lines 66-75). -/
def parseTag (fuel : Nat) (ctx : PContext) : Except PError (Node × PContext) :=
  match fuel with
  | 0 => .error .fuelExhausted
  | fuel + 1 =>
    match ctx.currentToken with
    | none => .error .nilPanic -- unreachable: dispatched on the current token
    | some startTk =>
      let ctx := ctx.progress 1
      match parseToken fuel ctx ctx.currentToken with
      | .error e => .error (wrapErr "failed to parse tag value" e)
      | .ok (vOpt, ctx) => .ok (.tagNode startTk vOpt, ctx)

/-- parser.parseAnchor (source lines 189-213). -/
def parseAnchor (fuel : Nat) (ctx : PContext) : Except PError (Node × PContext) :=
  match fuel with
  | 0 => .error .fuelExhausted
  | fuel + 1 =>
    match ctx.currentToken with
    | none => .error .nilPanic -- unreachable: dispatched on the current token
    | some tk =>
      match ctx.nextToken with
      | none => .error (.syntaxErr "unexpected anchor. anchor name is undefined" (some tk))
      | some _ =>
        let ctx := ctx.progress 1
        match parseToken fuel ctx ctx.currentToken with
        | .error e => .error (wrapErr "failed to parser anchor name node" e)
        | .ok (nameOpt, ctx) =>
          match ctx.nextToken with
          | none => .error (.syntaxErr "unexpected anchor. anchor value is undefined" ctx.currentToken)
          | some _ =>
            let ctx := ctx.progress 1
            match parseToken fuel ctx ctx.currentToken with
            | .error e => .error (wrapErr "failed to parser anchor name node" e)
            | .ok (vOpt, ctx) => .ok (.anchorNode tk nameOpt vOpt, ctx)

/-- parser.parseAlias (source lines 215-229). -/
def parseAlias (fuel : Nat) (ctx : PContext) : Except PError (Node × PContext) :=
  match fuel with
  | 0 => .error .fuelExhausted
  | fuel + 1 =>
    match ctx.currentToken with
    | none => .error .nilPanic -- unreachable: dispatched on the current token
    | some tk =>
      match ctx.nextToken with
      | none => .error (.syntaxErr "unexpected alias. alias name is undefined" (some tk))
      | some _ =>
        let ctx := ctx.progress 1
        match parseToken fuel ctx ctx.currentToken with
        | .error e => .error (wrapErr "failed to parser alias name node" e)
        | .ok (nameOpt, ctx) => .ok (.aliasNode tk nameOpt, ctx)

/-- parser.parseDirective (source lines 278-291). -/
def parseDirective (fuel : Nat) (ctx : PContext) : Except PError (Node × PContext) :=
  match fuel with
  | 0 => .error .fuelExhausted
  | fuel + 1 =>
    match ctx.currentToken with
    | none => .error .nilPanic -- unreachable: dispatched on the current token
    | some startTk =>
      let ctx := ctx.progress 1
      match parseToken fuel ctx ctx.currentToken with
      | .error e => .error (wrapErr "failed to parse directive value" e)
      | .ok (vOpt, ctx) =>
        let ctx := ctx.progress 1
        match ctx.currentToken with
        | none => .error .nilPanic -- ctx.currentToken().Type dereferences nil
        | some t =>
          if t.typ ≠ .documentHeaderType then
            .error (.syntaxErr "unexpected directive value. document not started" (some t))
          else .ok (.directiveNode startTk vOpt, ctx)

/-- parser.parseLiteral (source lines 293-306). -/
def parseLiteral (fuel : Nat) (ctx : PContext) : Except PError (Node × PContext) :=
  match fuel with
  | 0 => .error .fuelExhausted
  | fuel + 1 =>
    match ctx.currentToken with
    | none => .error .nilPanic -- unreachable: dispatched on the current token
    | some startTk =>
      let ctx := ctx.progress 1
      match parseToken fuel ctx ctx.currentToken with
      | .error e => .error (wrapErr "failed to parse literal/folded value" e)
      | .ok (none, _) => .error .nilPanic -- value.GetToken() dereferences the nil node
      | .ok (some v, ctx) =>
        match v with
        | .stringNode tk => .ok (.literalNode startTk (.stringNode tk), ctx)
        | _ => .error (.syntaxErr "unexpected token. required string token" v.getToken)

/-- parser.parseDocument (source lines 308-321). -/
def parseDocument (fuel : Nat) (ctx : PContext) : Except PError (Node × PContext) :=
  match fuel with
  | 0 => .error .fuelExhausted
  | fuel + 1 =>
    match ctx.currentToken with
    | none => .error .nilPanic -- unreachable: dispatched on the current token
    | some startTk =>
      let ctx := ctx.progress 1
      match parseToken fuel ctx ctx.currentToken with
      | .error e => .error (wrapErr "failed to parse document body" e)
      | .ok (bodyOpt, ctx) =>
        match ctx.nextToken with
        | some ntk =>
          if ntk.typ = .documentEndType then
            .ok (.documentNode (some startTk) (some ntk) bodyOpt, ctx.progress 1)
          else .ok (.documentNode (some startTk) none bodyOpt, ctx)
        | none => .ok (.documentNode (some startTk) none bodyOpt, ctx)

/-- parser.parseMappingValue, entry part (source lines 88-111): key
validation, then the value, synthesizing a Null when the stream ends
at the mapping value token.  key.GetToken() equals the current token
for every parseMapKey result. -/
def parseMappingValue (fuel : Nat) (ctx : PContext) : Except PError (Node × PContext) :=
  match fuel with
  | 0 => .error .fuelExhausted
  | fuel + 1 =>
    match ctx.currentToken with
    | none => .error .nilPanic -- parseMapKey dereferences the nil token
    | some ktk =>
      match parseMapKey ktk with
      | none => .error (.syntaxErr "unexpected mapping key. key is undefined" (some ktk))
      | some key =>
        if ¬ validateMapKey ktk then
          .error (wrapErr "validate mapping key error" (.syntaxErr "unexpected key name" (some ktk)))
        else if ¬ key.isScalarNode then
          .error (.syntaxErr "unexpected mapping key, key is not scalar value" key.getToken)
        else
          let ctx := ctx.progress 1
          let tkO := ctx.currentToken -- the mapping value token
          let ctx := ctx.progress 1
          match ctx.currentToken with
          | none =>
            match tkO with
            | none => .error .nilPanic -- tk.Position dereferences the nil token
            | some tk =>
              finishMappingValue fuel ktk tk key (.nullNode (Token.new "null" "null" tk.pos)) ctx
          | some vtk =>
            match parseToken fuel ctx (some vtk) with
            | .error e => .error (wrapErr "failed to parse mapping value node" e)
            | .ok (none, _) => .error .nilPanic -- value.GetToken() dereferences the nil node
            | .ok (some value, ctx) =>
              match tkO with
              | none => .error .nilPanic -- unreachable: a cursor past the end stays past the end
              | some tk => finishMappingValue fuel ktk tk key value ctx

/-- parser.parseMappingValue, grouping part (source lines 112-157):
the same-column String check, the MappingValue node, and the greedy
sibling loop followed by the single-pair collapse. -/
def finishMappingValue (fuel : Nat) (ktk tk : Token) (key value : Node) (ctx : PContext) :
    Except PError (Node × PContext) :=
  match fuel with
  | 0 => .error .fuelExhausted
  | fuel + 1 =>
    match value.getToken with
    | none => .error .nilPanic -- value.GetToken().Position dereferences nil
    | some vt =>
      let keyColumn := ktk.pos.column
      let valueColumn := vt.pos.column
      let misplacedKey : Bool :=
        decide (keyColumn = valueColumn) && decide (value.typeOf = .stringType) &&
        (match ctx.nextToken with
         | none => true
         | some ntk => decide (ntk.typ ≠ .mappingValueType) && decide (ntk.typ ≠ .sequenceEntryType))
      if misplacedKey then
        .error (.syntaxErr "could not found expected colon token" value.getToken)
      else
        let mvnode := Node.mappingValueNode tk key value
        parseMappingValueLoop fuel keyColumn mvnode tk [mvnode] ctx

/-- The sibling loop of parser.parseMappingValue (source lines
127-157): absorb following pairs whose key column equals this key
column and whose after-next token is MappingValue, flattening nested
Mapping results; finally collapse a single pair to the bare
MappingValue node. -/
def parseMappingValueLoop (fuel : Nat) (keyColumn : Int) (mvnode : Node) (startTk : Token)
    (values : List Node) (ctx : PContext) : Except PError (Node × PContext) :=
  match fuel with
  | 0 => .error .fuelExhausted
  | fuel + 1 =>
    let cont : Except PError Bool :=
      match ctx.afterNextToken with
      | none => .ok false
      | some antk =>
        if antk.typ = .mappingValueType then
          match ctx.nextToken with
          | some ntk => .ok (ntk.pos.column = keyColumn)
          | none => .error .nilPanic -- ntk.Position dereferences nil (unreachable)
        else .ok false
    match cont with
    | .error e => .error e
    | .ok false =>
      if values.length = 1 then .ok (mvnode, ctx)
      else .ok (.mappingNode startTk false none values, ctx)
    | .ok true =>
      let ctx := ctx.progress 1
      match parseToken fuel ctx ctx.currentToken with
      | .error e => .error (wrapErr "failed to parse mapping node" e)
      | .ok (none, _) => .error .nilPanic -- value.Type() dereferences the nil node
      | .ok (some value, ctx) =>
        match value with
        | .mappingNode _ _ _ vs =>
          parseMappingValueLoop fuel keyColumn mvnode startTk (values ++ vs) ctx
        | .mappingValueNode a b c =>
          parseMappingValueLoop fuel keyColumn mvnode startTk
            (values ++ [Node.mappingValueNode a b c]) ctx
        | _ => .error (.fmtErr ("failed to parse mapping value node node is " ++ nodeTypeName value.typeOf))

/-- parser.parseSequenceEntry (source lines 160-187): block sequence. -/
def parseSequenceEntry (fuel : Nat) (ctx : PContext) : Except PError (Node × PContext) :=
  match fuel with
  | 0 => .error .fuelExhausted
  | fuel + 1 =>
    match ctx.currentToken with
    | none => .error .nilPanic -- tk.Position dereferences the nil token
    | some tk => parseSequenceEntryLoop fuel tk tk.pos.column tk [] ctx

/-- The for-loop of parser.parseSequenceEntry (source lines 167-185):
consume one `-` per value and continue exactly while the next token is
a SequenceEntry at the starting column. -/
def parseSequenceEntryLoop (fuel : Nat) (startTk : Token) (curColumn : Int) (tk : Token)
    (values : List (Option Node)) (ctx : PContext) : Except PError (Node × PContext) :=
  match fuel with
  | 0 => .error .fuelExhausted
  | fuel + 1 =>
    if tk.typ ≠ .sequenceEntryType then .ok (.sequenceNode startTk false none values, ctx)
    else
      let ctx := ctx.progress 1
      match parseToken fuel ctx ctx.currentToken with
      | .error e => .error (wrapErr "failed to parse sequence" e)
      | .ok (vOpt, ctx) =>
        let values := values ++ [vOpt]
        match ctx.nextToken with
        | none => .ok (.sequenceNode startTk false none values, ctx)
        | some tk2 =>
          if tk2.typ ≠ .sequenceEntryType then .ok (.sequenceNode startTk false none values, ctx)
          else if tk2.pos.column ≠ curColumn then .ok (.sequenceNode startTk false none values, ctx)
          else parseSequenceEntryLoop fuel startTk curColumn tk2 values (ctx.progress 1)

end

/-- ast.File (modelled from the spec): the list of documents. -/
structure File where
  docs : List Node
deriving Repr

/-- The for-loop of parser.parse (source lines 356-370): one document
appended per parsed node, wrapping non-document nodes. -/
def parseLoop (fuel : Nat) (docs : List Node) (ctx : PContext) :
    Except PError (List Node × PContext) :=
  match fuel with
  | 0 => .error .fuelExhausted
  | fuel + 1 =>
    if ¬ ctx.next then .ok (docs, ctx)
    else
      match parseToken fuel ctx ctx.currentToken with
      | .error e => .error (wrapErr "failed to parse" e)
      | .ok (nodeOpt, ctx) =>
        let ctx := ctx.progress 1
        match nodeOpt with
        | none => parseLoop fuel docs ctx
        | some n =>
          match n with
          | .documentNode a b c => parseLoop fuel (docs ++ [Node.documentNode a b c]) ctx
          | _ => parseLoop fuel (docs ++ [Node.documentNode none none (some n)]) ctx

/-- parser.parse (source lines 353-372). -/
def parseF (fuel : Nat) (tokens : List Token) (mode : Nat) : Except PError File :=
  match parseLoop fuel [] (newPContext tokens mode) with
  | .error e => .error e
  | .ok (docs, _) => .ok { docs := docs }

/-- Parse (source lines 391-398); the fuel is ample for the input. -/
def Parse (tokens : List Token) (mode : Nat) : Except PError File :=
  match parseF (4 * tokens.length + 16) tokens mode with
  | .error e => .error (wrapErr "failed to parse" e)
  | .ok f => .ok f

/-- ParseBytes (source lines 381-388). -/
def ParseBytes (src : String) (mode : Nat) : Except PError File :=
  match Parse (Tokenize src) mode with
  | .error e => .error (wrapErr "failed to parse" e)
  | .ok f => .ok f

/-! ## Concrete tokens and streams used by the claim theorems -/

/-- A one-line position at the given column and offset. -/
def posAt (col off : Int) : Position :=
  { line := 1, column := col, offset := off, indentNum := 0, indentLevel := 0 }

/-- The substring of the source that the claimed position equation
src[t.Offset-1 : t.Offset-1+len(t.Origin)] selects for a token. -/
def originSlice (src : List Char) (t : Token) : List Char :=
  (src.drop (t.pos.offset - 1).toNat).take t.origin.toList.length

/-- The single token the scanner produces for the source " a". -/
def spaceAToken : Token :=
  { typ := .stringType, value := "a", origin := " a",
    pos := { line := 1, column := 2, offset := 2, indentNum := 1, indentLevel := 1 },
    next := none }

/-- The single token the scanner produces for the source with the bad
literal header, after the header error is dropped. -/
def badHeaderToken : Token :=
  { typ := .stringType, value := "a", origin := "a",
    pos := { line := 1, column := 1, offset := 2, indentNum := 0, indentLevel := 0 },
    next := none }

/-- Tokens of the unterminated flow mapping stream for the stream
MappingStart, "a", ":", 1 (no MappingEnd anywhere). -/
def c3MapStart : Token :=
  { typ := .mappingStartType, value := "\x7b", origin := "\x7b", pos := posAt 1 1,
    next := some .stringType }

def c3Key : Token :=
  { typ := .stringType, value := "a", origin := "a", pos := posAt 2 2,
    next := some .mappingValueType }

def c3Colon : Token :=
  { typ := .mappingValueType, value := ":", origin := ":", pos := posAt 3 3,
    next := some .integerType }

def c3Value : Token :=
  { typ := .integerType, value := "1", origin := "1", pos := posAt 5 5, next := none }

def c3MappingStream : List Token := [c3MapStart, c3Key, c3Colon, c3Value]

/-- Tokens of the unterminated flow sequence stream SequenceStart, 1. -/
def c3SeqStart : Token :=
  { typ := .sequenceStartType, value := "[", origin := "[", pos := posAt 1 1,
    next := some .integerType }

def c3SeqValue : Token :=
  { typ := .integerType, value := "1", origin := "1", pos := posAt 2 2, next := none }

def c3SequenceStream : List Token := [c3SeqStart, c3SeqValue]

/-- Tokens for a complete single mapping pair (a key, a colon, a value). -/
def c5Key : Token :=
  { typ := .stringType, value := "a", origin := "a", pos := posAt 1 1,
    next := some .mappingValueType }

def c5Colon : Token :=
  { typ := .mappingValueType, value := ":", origin := ":", pos := posAt 2 2,
    next := some .integerType }

def c5Value : Token :=
  { typ := .integerType, value := "1", origin := "1", pos := posAt 4 4, next := none }

def c5Ctx : PContext := { tokens := [c5Key, c5Colon, c5Value] }

/-- Tokens for a mapping key whose colon ends the stream. -/
def c6Key : Token :=
  { typ := .stringType, value := "a", origin := "a", pos := posAt 1 1,
    next := some .mappingValueType }

def c6Colon : Token :=
  { typ := .mappingValueType, value := ":", origin := ":", pos := posAt 2 2, next := none }

def c6Ctx : PContext := { tokens := [c6Key, c6Colon] }

/-- The block sequence family: n+1 entries marked by a dash at column
c1, each carrying the scalar 1, followed by one dash at column c2 that
belongs to another sequence. -/
def c7dash (col : Int) (nt : Option TokenType) : Token :=
  { typ := .sequenceEntryType, value := "-", origin := "-", pos := posAt col 1, next := nt }

def c7one : Token :=
  { typ := .integerType, value := "1", origin := "1", pos := posAt 3 3,
    next := some .sequenceEntryType }

def c7stream : Nat → Int → Int → List Token
  | 0, _, c2 => [c7dash c2 none]
  | n + 1, c1, c2 => c7dash c1 (some .integerType) :: c7one :: c7stream n c1 c2

def c7value : Option Node := some (.integerNode c7one)

/-- Follows the words of the claim (spec section 4.9), as the second
definition of a refinement: within a block sequence group of starting
column curColumn, each iteration consumes exactly one SequenceEntry
dash token, parses one value and appends it; the group continues
exactly while the next token is a SequenceEntry whose column equals
curColumn; a SequenceEntry at any other column, a non-SequenceEntry
token, or the end of the stream ends the sequence. -/
def blockSequenceSpecLoop (fuel : Nat) (startTk : Token) (curColumn : Int)
    (values : List (Option Node)) (ctx : PContext) : Except PError (Node × PContext) :=
  match fuel with
  | 0 => .error .fuelExhausted
  | fuel + 1 =>
    let ctx := ctx.progress 1
    match parseToken fuel ctx ctx.currentToken with
    | .error e => .error (wrapErr "failed to parse sequence" e)
    | .ok (vOpt, ctx) =>
      let values := values ++ [vOpt]
      match ctx.nextToken with
      | some tk2 =>
        if tk2.typ = .sequenceEntryType then
          if tk2.pos.column = curColumn then
            -- the next token is a SequenceEntry at the same column: continue
            blockSequenceSpecLoop fuel startTk curColumn values (ctx.progress 1)
          else
            -- a SequenceEntry at any other column ends the sequence
            .ok (.sequenceNode startTk false none values, ctx)
        else
          -- a non-SequenceEntry token ends the sequence
          .ok (.sequenceNode startTk false none values, ctx)
      | none =>
        -- end of stream ends the sequence
        .ok (.sequenceNode startTk false none values, ctx)

/-- A flow-mapping element that parses to a plain scalar, not to a
MappingValue node. -/
def c8Tok : Token :=
  { typ := .stringType, value := "x", origin := "x", pos := posAt 1 1,
    next := some .sequenceEndType }

def c8Ctx : PContext := { tokens := [c8Tok] }

/-- Sample scanner states for the indent-pin witness. -/
def c10Scanner : Scanner := Scanner.init "a"

def c10PinnedScanner : Scanner :=
  { Scanner.init "a" with prevIndentColumn := 3, column := 5 }

/-! ## Claim theorems -/

/-- Claim C1, counterexample: parsing the empty input yields a File
with no documents at all, refuting both that a File always contains at
least one Document and that the empty input yields a Null document. -/
theorem C1_counterexample : ParseBytes "" 0 = .ok { docs := [] } := rfl

/-- Claim C1 (corrected): for the empty input the scanner produces no
tokens and the parse loop never runs, so the File contains no
documents; the parser appends exactly one document per parsed
top-level node, so a nonempty input such as "a" yields one document. -/
theorem C1_amended_theorem :
    ParseBytes "" 0 = .ok { docs := [] } ∧
    (ParseBytes "a" 0).map (fun f => f.docs.length) = .ok 1 :=
  ⟨rfl, rfl⟩

/-- Claim C2 (code bug): on the input with the invalid literal header
tail "a", scanLiteralHeader raises its error (first conjunct), but
scan discards it — the TODO comment in the source — and tokenization
completes normally, returning the token stream of the remaining text
with no error and no position for the caller (second conjunct). -/
theorem C2_swallowed_lexical_error :
    (Scanner.scanLiteralHeader (Scanner.init "|a\n") { src := "|a\n".toList }).2.2 = true ∧
    Tokenize "|a\n" = [badHeaderToken] :=
  ⟨rfl, rfl⟩

/-- Claim C3, counterexample: a token stream whose MappingStart is
never matched by a MappingEnd parses successfully to a one-document
File instead of failing with a syntax error. -/
theorem C3_counterexample :
    (Parse c3MappingStream 0).map (fun f => f.docs.length) = .ok 1 := rfl

/-- Claim C3 (corrected): an unmatched MappingStart or SequenceStart
does not make parse fail; the element loop simply stops at the end of
the stream and the flow node is returned with its end token unset. -/
theorem C3_amended_theorem :
    Parse c3MappingStream 0 =
      .ok { docs := [Node.documentNode none none
              (some (Node.mappingNode c3MapStart true none
                [Node.mappingValueNode c3Colon (.stringNode c3Key) (.integerNode c3Value)]))] } ∧
    Parse c3SequenceStream 0 =
      .ok { docs := [Node.documentNode none none
              (some (Node.sequenceNode c3SeqStart true none
                [some (.integerNode c3SeqValue)]))] } :=
  ⟨rfl, rfl⟩

/-- Claim C4 (code bug): on the source " a" the only token records
Origin " a" but Offset 2, the offset of the trimmed value rather than
of the origin, so the claimed slice equation src[t.Offset-1 :
t.Offset-1+len(t.Origin)] = t.Origin fails. -/
theorem C4_unfaithful_position :
    Tokenize " a" = [spaceAToken] ∧
    originSlice " a".toList spaceAToken ≠ spaceAToken.origin.toList :=
  ⟨rfl, by decide⟩

/-- Claim C9 (code bug): the input consisting of a bare document
header tokenizes to a stream ending immediately after the
DocumentHeader token, and parseDocument then hands the nil current
token to parseToken, which dereferences it: the parse crashes instead
of returning a File or an error. -/
theorem C9_nil_token_panic : ParseBytes "---\n" 0 = .error .nilPanic := rfl

/-- Claim C8 (confirmed): in the flow-mapping element loop, whenever
the current element is neither MappingEnd nor CollectEntry and it
parses to a node of any kind other than MappingValue, the loop fails
with the syntax error "failed to parse flow mapping value node"
carrying the token of that node. -/
theorem C8_flow_mapping_value_error (fuel : Nat) (values : List Node) (ctx ctx2 : PContext)
    (tk : Token) (v : Node)
    (h1 : ctx.currentToken = some tk)
    (h2 : tk.typ ≠ .mappingEndType)
    (h3 : tk.typ ≠ .collectEntryType)
    (h4 : parseToken fuel ctx (some tk) = .ok (some v, ctx2))
    (h5 : v.typeOf ≠ .mappingValueType) :
    parseMappingLoop (fuel + 1) values ctx =
      .error (.syntaxErr "failed to parse flow mapping value node" v.getToken) := by
  have hlt : ctx.idx < ctx.tokens.length := by
    rcases List.get?_eq_some.mp h1 with ⟨h, _⟩
    exact h
  have hnext : ctx.next = true := by
    simp [PContext.next, hlt]
  unfold parseMappingLoop
  rw [hnext, h1]
  simp only [Bool.not_true, if_neg (by simp : ¬ (false = true))]
  rw [if_neg h2, if_neg h3, h4]
  cases v <;> simp_all [Node.typeOf]

/-- Claim C8 witness input. -/
theorem C8_witness :
    parseMappingLoop 2 [] c8Ctx =
      .error (.syntaxErr "failed to parse flow mapping value node" (some c8Tok)) :=
  C8_flow_mapping_value_error 1 [] c8Ctx c8Ctx c8Tok (.stringNode c8Tok)
    rfl (by decide) (by decide) rfl (by decide)

/-- Claim C6 (confirmed): when the mapping-value token of a block
mapping key is the last token of the stream, the parser synthesizes a
Null node positioned at that token and returns the pair with that Null
as its value. -/
theorem C6_null_value_synthesized (fuel : Nat) (ctx : PContext) (ktk ctk : Token) (key : Node)
    (h1 : ctx.currentToken = some ktk)
    (h2 : parseMapKey ktk = some key)
    (h3 : validateMapKey ktk = true)
    (h4 : key.isScalarNode = true)
    (h5 : ctx.nextToken = some ctk)
    (h6 : ctx.afterNextToken = none) :
    parseMappingValue (fuel + 3) ctx =
      .ok (Node.mappingValueNode ctk key (Node.nullNode (Token.new "null" "null" ctk.pos)),
           ctx.progress 2) := by
  have hc1 : (ctx.progress 1).currentToken = some ctk := by
    simpa [PContext.progress, PContext.currentToken, PContext.nextToken] using h5
  have hlen : ctx.tokens.length ≤ ctx.idx + 2 := by
    simpa [PContext.afterNextToken, List.get?_eq_none] using h6
  have hc2 : (ctx.progress 2).currentToken = none := by
    simp only [PContext.progress, PContext.currentToken]
    exact List.get?_eq_none.mpr (by omega)
  have hp2 : (ctx.progress 1).progress 1 = ctx.progress 2 := by
    simp [PContext.progress]
  have hloopNone : (ctx.progress 2).afterNextToken = none := by
    simp only [PContext.progress, PContext.afterNextToken]
    exact List.get?_eq_none.mpr (by omega)
  unfold parseMappingValue
  simp only [h1]
  simp only [h2]
  simp only [h3, h4, not_true, ite_false, if_false, Bool.not_eq_true]
  simp only [hc1, hp2, hc2]
  unfold finishMappingValue
  simp only [Node.getToken, Node.typeOf]
  rw [show (decide (NodeType.nullType = NodeType.stringType)) = false from rfl]
  simp only [Bool.and_false, Bool.false_and, if_neg (by simp : ¬ (false = true))]
  unfold parseMappingValueLoop
  rw [hloopNone]
  simp

/-- Claim C6 witness input: the stream a, colon. -/
theorem C6_witness :
    parseMappingValue 7 c6Ctx =
      .ok (Node.mappingValueNode c6Colon (.stringNode c6Key)
             (Node.nullNode (Token.new "null" "null" c6Colon.pos)),
           c6Ctx.progress 2) :=
  C6_null_value_synthesized 4 c6Ctx c6Key c6Colon (.stringNode c6Key) rfl rfl rfl rfl rfl rfl

/-- Claim C10 (confirmed): the pinned column is consulted only at the
first non-space character of a line.  There, whenever the pin is set
it alone decides the indent state by comparison with the current
column, and the call always resets the pin to zero; in every other
call the pin is left unchanged and has no influence on the resulting
indent state.  So a pin influences at most one indent classification. -/
theorem C10_pin_used_once (s : Scanner) (c : Char) :
    (s.isFirstCharAtLine = true → c ≠ ' ' → (Scanner.updateIndent s c).prevIndentColumn = 0)
    ∧ ((s.isFirstCharAtLine = false ∨ c = ' ') →
        (Scanner.updateIndent s c).prevIndentColumn = s.prevIndentColumn ∧
        ∀ p : Int, (Scanner.updateIndent { s with prevIndentColumn := p } c).indentState =
          (Scanner.updateIndent s c).indentState)
    ∧ (s.isFirstCharAtLine = true → c ≠ ' ' → 0 < s.prevIndentColumn →
        (Scanner.updateIndent s c).indentState =
          (if s.prevIndentColumn < s.column then .indentStateUp
           else if s.prevIndentColumn = s.column then .indentStateEqual
           else .indentStateDown)) := by
  refine ⟨?_, ?_, ?_⟩
  · intro hf hc
    simp [Scanner.updateIndent, hf, hc]
  · intro h
    rcases h with h | h
    · constructor
      · by_cases hsp : c = ' ' <;> simp [Scanner.updateIndent, h, hsp]
      · intro p
        by_cases hsp : c = ' ' <;> simp [Scanner.updateIndent, h, hsp]
    · constructor
      · by_cases hf : s.isFirstCharAtLine <;> simp [Scanner.updateIndent, h, hf]
      · intro p
        by_cases hf : s.isFirstCharAtLine <;> simp [Scanner.updateIndent, h, hf]
  · intro hf hc hp
    simp only [Scanner.updateIndent, hf, hc]
    split_ifs <;> simp_all

/-- Claim C10 witness input: a fresh scanner at the first character of
a line, once with no pin and once with the pin at column 3 while the
column is 5. -/
theorem C10_witness :
    (Scanner.updateIndent c10Scanner 'a').prevIndentColumn = 0 ∧
    (Scanner.updateIndent c10PinnedScanner 'a').indentState = .indentStateUp := by
  constructor
  · exact (C10_pin_used_once c10Scanner 'a').1 rfl (by decide)
  · have h := (C10_pin_used_once c10PinnedScanner 'a').2.2 rfl (by decide) (by decide)
    rw [h]
    decide

/-- A nonempty accumulator stays nonempty under append. -/
theorem acc_append_ne_nil {α : Type} (l l2 : List α) (h : l ≠ []) : l ++ l2 ≠ [] := by
  cases l <;> simp_all

/-- The sibling loop of parseMappingValue only ever returns the bare
MappingValue node it was given, or a block Mapping node with at least
two values: the accumulator starts nonempty and only grows, and a
final length of exactly one is returned as the bare node. -/
theorem parseMappingValueLoop_shape :
    ∀ (fuel : Nat) (keyColumn : Int) (mvnode : Node) (startTk : Token) (values : List Node)
      (ctx : PContext) (node : Node) (ctx2 : PContext),
      values ≠ [] →
      parseMappingValueLoop fuel keyColumn mvnode startTk values ctx = .ok (node, ctx2) →
      node = mvnode ∨ ∃ vs, node = Node.mappingNode startTk false none vs ∧ 2 ≤ vs.length := by
  intro fuel
  induction fuel with
  | zero =>
    intro _ _ _ values ctx node ctx2 _ h
    simp [parseMappingValueLoop] at h
  | succ fuel ih =>
    intro keyColumn mvnode startTk values ctx node ctx2 hne h
    unfold parseMappingValueLoop at h
    have hstop : ∀ (hh : (if values.length = 1 then Except.ok (mvnode, ctx)
        else Except.ok (Node.mappingNode startTk false none values, ctx) :
          Except PError (Node × PContext)) = .ok (node, ctx2)),
        node = mvnode ∨ ∃ vs, node = Node.mappingNode startTk false none vs ∧ 2 ≤ vs.length := by
      intro hh
      by_cases hl : values.length = 1
      · simp only [hl, if_true, ite_true] at hh
        simp only [Except.ok.injEq, Prod.mk.injEq] at hh
        exact .inl hh.1.symm
      · simp only [hl, if_false, ite_false] at hh
        simp only [Except.ok.injEq, Prod.mk.injEq] at hh
        refine .inr ⟨values, hh.1.symm, ?_⟩
        have h0 : 0 < values.length := List.length_pos.mpr hne
        omega
    rcases hA : ctx.afterNextToken with _ | antk
    · simp only [hA] at h
      exact hstop h
    · simp only [hA] at h
      by_cases ht : antk.typ = TokenType.mappingValueType
      · simp only [ht, if_true, ite_true] at h
        rcases hN : ctx.nextToken with _ | ntk
        · simp only [hN] at h
          simp at h
        · simp only [hN] at h
          by_cases hcol : ntk.pos.column = keyColumn
          · simp only [hcol, if_true, ite_true] at h
            rcases hP : parseToken fuel (ctx.progress 1) ((ctx.progress 1).currentToken)
              with e | ⟨vOpt, ctx3⟩
            · simp only [hP] at h
              simp at h
            · simp only [hP] at h
              rcases vOpt with _ | value
              · simp at h
              · cases value <;> simp only [] at h <;>
                  first
                  | exact ih keyColumn mvnode startTk _ ctx3 node ctx2
                      (acc_append_ne_nil _ _ hne) h
                  | simp_all
          · simp only [hcol, if_false, ite_false] at h
            exact hstop h
      · simp only [ht, if_false, ite_false] at h
        exact hstop h

/-- The grouping part of parseMappingValue hands the loop a singleton
accumulator, so its successful results have the claimed shape. -/
theorem finishMappingValue_shape (fuel : Nat) (ktk tk : Token) (key value : Node)
    (ctx : PContext) (node : Node) (ctx2 : PContext)
    (h : finishMappingValue fuel ktk tk key value ctx = .ok (node, ctx2)) :
    (∃ t k v, node = Node.mappingValueNode t k v) ∨
    (∃ t vs, node = Node.mappingNode t false none vs ∧ 2 ≤ vs.length) := by
  cases fuel with
  | zero => simp [finishMappingValue] at h
  | succ fuel =>
    unfold finishMappingValue at h
    rcases hG : value.getToken with _ | vt
    · simp only [hG] at h
      simp at h
    · simp only [hG] at h
      split at h
      · simp at h
      · rcases parseMappingValueLoop_shape fuel ktk.pos.column
          (Node.mappingValueNode tk key value) tk [Node.mappingValueNode tk key value]
          ctx node ctx2 (by simp) h with h1 | ⟨vs, h1, h2⟩
        · exact .inl ⟨tk, key, value, h1⟩
        · exact .inr ⟨tk, vs, h1, h2⟩

/-- Claim C5 (confirmed): a successful parseMappingValue returns
either a bare MappingValue node (one accumulated pair) or a block
Mapping node with at least two values; it never returns a Mapping
whose values list has length one. -/
theorem C5_single_pair_collapse (fuel : Nat) (ctx : PContext) (node : Node) (ctx2 : PContext)
    (h : parseMappingValue fuel ctx = .ok (node, ctx2)) :
    (∃ t k v, node = Node.mappingValueNode t k v) ∨
    (∃ t vs, node = Node.mappingNode t false none vs ∧ 2 ≤ vs.length) := by
  cases fuel with
  | zero => simp [parseMappingValue] at h
  | succ fuel =>
    unfold parseMappingValue at h
    rcases hC : ctx.currentToken with _ | ktk
    · simp only [hC] at h
      simp at h
    · simp only [hC] at h
      rcases hK : parseMapKey ktk with _ | key
      · simp only [hK] at h
        simp at h
      · simp only [hK] at h
        by_cases hV : validateMapKey ktk = true
        · by_cases hS : key.isScalarNode = true
          · simp only [hV, hS] at h
            simp only [not_true, ite_false, if_false] at h
            rcases hv : ((ctx.progress 1).progress 1).currentToken with _ | vtk
            · simp only [hv] at h
              rcases ht : (ctx.progress 1).currentToken with _ | tk
              · simp only [ht] at h
                simp at h
              · simp only [ht] at h
                exact finishMappingValue_shape fuel ktk tk key _ _ node ctx2 h
            · simp only [hv] at h
              rcases hP : parseToken fuel ((ctx.progress 1).progress 1) (some vtk)
                with e | ⟨vOpt, ctx3⟩
              · simp only [hP] at h
                simp at h
              · simp only [hP] at h
                rcases vOpt with _ | value
                · simp at h
                · rcases ht : (ctx.progress 1).currentToken with _ | tk
                  · simp only [ht] at h
                    simp at h
                  · simp only [ht] at h
                    exact finishMappingValue_shape fuel ktk tk key value ctx3 node ctx2 h
          · simp only [hV, hS] at h
            simp at h
        · simp only [hV] at h
          simp at h

/-- Claim C5 witness input: the stream a, colon, 1 accumulates exactly
one pair and the parser returns the bare MappingValue node. -/
theorem C5_witness :
    (∃ t k v, (Node.mappingValueNode c5Colon (.stringNode c5Key) (.integerNode c5Value)) =
        Node.mappingValueNode t k v) ∨
    (∃ t vs, (Node.mappingValueNode c5Colon (.stringNode c5Key) (.integerNode c5Value)) =
        Node.mappingNode t false none vs ∧ 2 ≤ vs.length) :=
  C5_single_pair_collapse 20 c5Ctx
    (Node.mappingValueNode c5Colon (.stringNode c5Key) (.integerNode c5Value))
    { tokens := [c5Key, c5Colon, c5Value], idx := 2 } rfl

/-- The source loop of parseSequenceEntry carries the dash token it is
about to consume and re-checks its kind at the top; whenever that
token is a SequenceEntry -- as it is at entry and at every
continuation -- the loop computes exactly the claim-worded
specification, for every fuel, column, accumulator and token stream. -/
theorem parseSequenceEntryLoop_eq_spec :
    ∀ (fuel : Nat) (startTk : Token) (curColumn : Int) (tk : Token)
      (values : List (Option Node)) (ctx : PContext),
      tk.typ = .sequenceEntryType →
      parseSequenceEntryLoop fuel startTk curColumn tk values ctx =
        blockSequenceSpecLoop fuel startTk curColumn values ctx := by
  intro fuel
  induction fuel with
  | zero =>
    intro startTk curColumn tk values ctx htk
    rfl
  | succ fuel ih =>
    intro startTk curColumn tk values ctx htk
    unfold parseSequenceEntryLoop blockSequenceSpecLoop
    rw [if_neg (by simp [htk])]
    rcases hP : parseToken fuel (ctx.progress 1) ((ctx.progress 1).currentToken)
      with e | ⟨vOpt, ctx2⟩
    · simp [hP]
    · simp only [hP]
      rcases hN : ctx2.nextToken with _ | tk2
      · simp [hN]
      · simp only [hN]
        by_cases h2 : tk2.typ = TokenType.sequenceEntryType
        · by_cases hcol : tk2.pos.column = curColumn
          · simp only [h2, hcol]
            simp only [not_true, ite_false, ite_true, if_false, if_true]
            simp
            exact ih startTk curColumn tk2 _ _ h2
          · simp [h2, hcol]
        · simp [h2]

/-- Claim C7 (confirmed): for every block sequence started at a
SequenceEntry token, the parser computes exactly the claim-worded
specification blockSequenceSpecLoop from that token and its column:
one parsed value is appended per consumed dash, and the group
continues exactly while the next token is a SequenceEntry at the same
column; a SequenceEntry at any other column, a non-SequenceEntry
token, or the end of the stream ends the sequence. -/
theorem C7_block_sequence_spec (fuel : Nat) (ctx : PContext) (tk : Token)
    (h1 : ctx.currentToken = some tk)
    (h2 : tk.typ = .sequenceEntryType) :
    parseSequenceEntry (fuel + 1) ctx =
      blockSequenceSpecLoop fuel tk tk.pos.column [] ctx := by
  unfold parseSequenceEntry
  simp only [h1]
  exact parseSequenceEntryLoop_eq_spec fuel tk tk.pos.column tk [] ctx h2

/-- Claim C7 witness input: two entries at column 1 followed by a dash
at column 5; the parse agrees with the claim-worded specification. -/
theorem C7_witness :
    parseSequenceEntry 10 { tokens := c7stream 2 1 5 } =
      blockSequenceSpecLoop 9 (c7dash 1 (some .integerType))
        (c7dash 1 (some .integerType)).pos.column [] { tokens := c7stream 2 1 5 } :=
  C7_block_sequence_spec 9 { tokens := c7stream 2 1 5 } (c7dash 1 (some .integerType)) rfl rfl

end goyaml
